import Mathlib

set_option maxRecDepth 10000

/-!
Verification development for the "UrbanPulse+" mobile application
(screens: Login, Home, Profile, Settings, TravelNews; plus a standalone
numeric solver).  Each JavaScript handler with observable behaviour is
shallowly embedded as an executable Lean function, and the properties
stated in the specification are proved about those functions.
-/

namespace UrbanPulse

/-! ## Login screen (LoginScreen.js) -/

/-- Observable outcome of a login handler: either the `onLogin` callback is
invoked, or an `Alert.alert(title, message)` dialog is shown. -/
inductive LoginOutcome
  | loggedIn
  | alert (title message : String)
  deriving DecidableEq, Repr

/-- Embeds `handleEmailLogin`: compares the email and password fields against
the hardcoded literal pair; on a match it invokes `onLogin` (after a simulated
delay), otherwise it shows an error alert. -/
def handleEmailLogin (email password : String) : LoginOutcome :=
  if email = "testuser@example.com" ∧ password = "Test@1234" then
    .loggedIn
  else
    .alert "Error" "Invalid credentials. Use testuser@example.com and Test@1234"

/-- Embeds `handleGoogleLogin`: invokes `onLogin` after a simulated delay.
The handler closes over the email and password fields but never reads them,
so the embedding takes them as arguments and ignores them. -/
def handleGoogleLogin (_email _password : String) : LoginOutcome :=
  .loggedIn

/-- C1: `handleEmailLogin` invokes `onLogin` exactly for the literal
credential pair `testuser@example.com` / `Test@1234`; every other input
produces the error alert dialog and does not invoke `onLogin`. -/
theorem handleEmailLogin_iff_literal_credentials (email password : String) :
    (handleEmailLogin email password = .loggedIn ↔
      (email = "testuser@example.com" ∧ password = "Test@1234")) ∧
    (¬(email = "testuser@example.com" ∧ password = "Test@1234") →
      handleEmailLogin email password =
        .alert "Error"
          "Invalid credentials. Use testuser@example.com and Test@1234") := by
  constructor
  · constructor
    · intro h
      by_contra hc
      rw [handleEmailLogin, if_neg hc] at h
      exact LoginOutcome.noConfusion h
    · intro h
      simp only [handleEmailLogin, if_pos h]
  · intro h
    simp only [handleEmailLogin, if_neg h]

/-- Witness for C1: the literal credentials log in; a wrong pair alerts. -/
theorem handleEmailLogin_iff_literal_credentials_witness :
    handleEmailLogin "testuser@example.com" "Test@1234" = .loggedIn ∧
    handleEmailLogin "user" "pw" =
      .alert "Error"
        "Invalid credentials. Use testuser@example.com and Test@1234" :=
  ⟨(handleEmailLogin_iff_literal_credentials "testuser@example.com"
      "Test@1234").1.2 ⟨rfl, rfl⟩,
   (handleEmailLogin_iff_literal_credentials "user" "pw").2 (by decide)⟩

/-- C8: the outcome of `handleGoogleLogin` is the same for every state of the
email and password fields, and it always invokes `onLogin`: the login outcome
is independent of the credential inputs. -/
theorem handleGoogleLogin_independent_of_credentials
    (e p e' p' : String) :
    handleGoogleLogin e p = handleGoogleLogin e' p' ∧
    handleGoogleLogin e p = .loggedIn :=
  ⟨rfl, rfl⟩

/-! ## Home screen search (HomeScreen.js, `handleSearch`) -/

/-- A state update observable during the search sequence: a progress message
being displayed, or one of the two boolean flags being set. -/
inductive SearchEvent
  | msg (s : String)
  | searching (b : Bool)
  | results (b : Bool)
  deriving DecidableEq, Repr

/-- JavaScript `String.prototype.trim`: strips leading and trailing
whitespace (embedded on the character list so that it is kernel-computable). -/
def jsTrim (s : String) : String :=
  String.mk
    (((s.toList.dropWhile Char.isWhitespace).reverse.dropWhile
        Char.isWhitespace).reverse)

/-- The fixed list of six progress strings of `HomeScreen`. -/
def progressMessages : List String :=
  [ "Fetching data...",
    "Understanding context...",
    "Analyzing traffic patterns...",
    "Optimizing route...",
    "Calculating environmental factors...",
    "Finalizing recommendations..." ]

/-- Embeds `handleSearch` as the timed trace of state updates it schedules
(times in milliseconds from the call).  If the trimmed query is non-empty it
sets `isSearching` to `true` and `showResults` to `false`, then a 1500 ms
interval displays `progressMessages[k-1]` on its k-th tick; after the sixth
tick the interval is cleared and a 1000 ms timeout sets `isSearching` to
`false` and `showResults` to `true`.  An empty (trimmed) query schedules
nothing. -/
def handleSearch (searchQuery : String) : List (Nat × SearchEvent) :=
  if jsTrim searchQuery ≠ "" then
    (0, .searching true) :: (0, .results false) ::
      (progressMessages.enum.map
        (fun is => (1500 * (is.1 + 1), SearchEvent.msg is.2))) ++
      [(1500 * 6 + 1000, .searching false), (1500 * 6 + 1000, .results true)]
  else []

/-- The progress message displayed by an event, when it is one. -/
def eventMsg : SearchEvent → Option String
  | .msg s => some s
  | _ => none

/-- C2: for every query with non-empty trim, `handleSearch` produces exactly
this trace: `isSearching := true` and `showResults := false` at once, the six
progress strings one at a time in list order at 1500 ms steps, and 1000 ms
after the sixth message `isSearching := false` and `showResults := true`.
Consequently the displayed messages are exactly `progressMessages` in order,
and `showResults` is set to `true` only at time 10000 ms, strictly after each
of the six message times. -/
theorem handleSearch_trace (q : String) (h : jsTrim q ≠ "") :
    handleSearch q =
      [(0, .searching true), (0, .results false),
       (1500, .msg "Fetching data..."),
       (3000, .msg "Understanding context..."),
       (4500, .msg "Analyzing traffic patterns..."),
       (6000, .msg "Optimizing route..."),
       (7500, .msg "Calculating environmental factors..."),
       (9000, .msg "Finalizing recommendations..."),
       (10000, .searching false), (10000, .results true)] ∧
    (handleSearch q).filterMap (fun te => eventMsg te.2) = progressMessages ∧
    (∀ t s, (t, SearchEvent.msg s) ∈ handleSearch q → t < 10000) ∧
    (∀ t, (t, SearchEvent.results true) ∈ handleSearch q → t = 10000) := by
  have htr : handleSearch q =
      [(0, .searching true), (0, .results false),
       (1500, .msg "Fetching data..."),
       (3000, .msg "Understanding context..."),
       (4500, .msg "Analyzing traffic patterns..."),
       (6000, .msg "Optimizing route..."),
       (7500, .msg "Calculating environmental factors..."),
       (9000, .msg "Finalizing recommendations..."),
       (10000, .searching false), (10000, .results true)] := by
    rw [handleSearch, if_pos h]
    rfl
  refine ⟨htr, by rw [htr]; rfl, ?_, ?_⟩
  · intro t s hmem
    rw [htr] at hmem
    simp only [List.mem_cons, List.not_mem_nil, or_false, Prod.mk.injEq]
      at hmem
    rcases hmem with ⟨h1, h2⟩ | ⟨h1, h2⟩ | ⟨h1, h2⟩ | ⟨h1, h2⟩ | ⟨h1, h2⟩ |
        ⟨h1, h2⟩ | ⟨h1, h2⟩ | ⟨h1, h2⟩ | ⟨h1, h2⟩ | ⟨h1, h2⟩ <;>
      first
        | omega
        | exact absurd h2 (by simp)
  · intro t hmem
    rw [htr] at hmem
    simp only [List.mem_cons, List.not_mem_nil, or_false, Prod.mk.injEq]
      at hmem
    rcases hmem with ⟨h1, h2⟩ | ⟨h1, h2⟩ | ⟨h1, h2⟩ | ⟨h1, h2⟩ | ⟨h1, h2⟩ |
        ⟨h1, h2⟩ | ⟨h1, h2⟩ | ⟨h1, h2⟩ | ⟨h1, h2⟩ | ⟨h1, h2⟩ <;>
      first
        | omega
        | exact absurd h2 (by simp)

/-- Witness for C2 at the concrete query from the voice-input simulation. -/
theorem handleSearch_trace_witness :
    (jsTrim "I want to go from Delhi to Mandi having greenery" ≠ "") ∧
    (handleSearch "I want to go from Delhi to Mandi having greenery").filterMap
        (fun te => eventMsg te.2) = progressMessages :=
  ⟨by decide,
   (handleSearch_trace "I want to go from Delhi to Mandi having greenery"
      (by decide)).2.1⟩

/-! ## Travel news screen (TravelNewsScreen.js) -/

/-- One article of the hardcoded `newsData` list. -/
structure NewsItem where
  id : Nat
  title : String
  summary : String
  category : String
  author : String
  publishTime : String
  readTime : String
  tags : List String
  likes : Nat
  comments : Nat
  isBookmarked : Bool
  deriving DecidableEq, Repr

/-- The six-element constant `newsData` list of `TravelNewsScreen`
(the `content` and `image` fields, unused by filtering, are omitted). -/
def newsData : List NewsItem :=
  [ { id := 1, title := "New Green Corridor Opens in Delhi",
      summary := "Dedicated cycling lanes connecting major parks and green spaces across the capital city.",
      category := "environment", author := "Delhi Transport Authority",
      publishTime := "2 hours ago", readTime := "3 min read",
      tags := ["Green Transport", "Delhi", "Cycling"],
      likes := 124, comments := 23, isBookmarked := false },
    { id := 2, title := "Mandi Tourism Booms with Eco-Friendly Initiatives",
      summary := "Local government promotes sustainable travel with new eco-tourism packages.",
      category := "environment", author := "Himachal Tourism Board",
      publishTime := "4 hours ago", readTime := "4 min read",
      tags := ["Eco Tourism", "Mandi", "Sustainability"],
      likes := 89, comments := 15, isBookmarked := true },
    { id := 3, title := "Weather Alert: Pleasant Conditions Expected",
      summary := "Perfect weather forecast for outdoor activities and travel across northern India.",
      category := "weather", author := "India Meteorological Department",
      publishTime := "6 hours ago", readTime := "2 min read",
      tags := ["Weather", "Travel", "Forecast"],
      likes := 67, comments := 8, isBookmarked := false },
    { id := 4, title := "Enhanced Safety Measures on NH44",
      summary := "New safety installations and improved lighting on the Delhi-Mandi highway route.",
      category := "safety", author := "National Highways Authority",
      publishTime := "8 hours ago", readTime := "3 min read",
      tags := ["Safety", "NH44", "Highway"],
      likes := 156, comments := 31, isBookmarked := true },
    { id := 5, title := "Traffic Optimization in Major Cities",
      summary := "Smart traffic management systems reduce congestion by 30% in urban areas.",
      category := "traffic", author := "Smart City Initiative",
      publishTime := "12 hours ago", readTime := "5 min read",
      tags := ["Smart City", "AI", "Traffic Management"],
      likes := 203, comments := 45, isBookmarked := false },
    { id := 6, title := "Electric Vehicle Charging Stations Expand",
      summary := "New EV charging infrastructure makes long-distance electric travel more feasible.",
      category := "environment", author := "Electric Vehicle Council",
      publishTime := "1 day ago", readTime := "4 min read",
      tags := ["Electric Vehicles", "Infrastructure", "Sustainability"],
      likes := 178, comments := 29, isBookmarked := true } ]

/-- Embeds the `filteredNews` expression: the whole list for category
`all`, otherwise a linear `filter` on the `category` field. -/
def filteredNews (selectedCategory : String) : List NewsItem :=
  if selectedCategory = "all" then newsData
  else newsData.filter (fun item => item.category = selectedCategory)

/-- C3: category filtering is a single linear predicate filter over the
six-element constant list: for `all` the whole list is returned unchanged,
and for any other category the result is exactly the sublist (in original
order) of elements whose `category` field equals the selected one. -/
theorem filteredNews_characterization (c : String) (hc : c ≠ "all") :
    newsData.length = 6 ∧
    filteredNews "all" = newsData ∧
    filteredNews c = newsData.filter (fun item => item.category = c) ∧
    (filteredNews c).Sublist newsData ∧
    (∀ x, x ∈ filteredNews c ↔ x ∈ newsData ∧ x.category = c) := by
  have hfix : filteredNews c =
      newsData.filter (fun item => item.category = c) := by
    rw [filteredNews, if_neg hc]
  refine ⟨rfl, rfl, hfix, ?_, ?_⟩
  · rw [hfix]
    exact List.filter_sublist newsData
  · intro x
    rw [hfix]
    simp [List.mem_filter]

/-- Witness for C3 at the concrete category `environment`. -/
theorem filteredNews_characterization_witness :
    filteredNews "environment" =
      newsData.filter (fun item => item.category = "environment") :=
  (filteredNews_characterization "environment" (by decide)).2.2.1

/-! ## Map section (HomeScreen.js, `MapSection`)

JavaScript numbers appearing here are decimal literals and results of exact
decimal arithmetic, embedded as decimal fixed-point values
(`mant / 10 ^ scale`); `jsNumStr` prints such a value the way JavaScript
string interpolation prints it (shortest decimal form, e.g. `77.209` for
the literal `77.2090`). -/

/-- A decimal fixed-point number: the value `mant / 10 ^ scale`. -/
structure Dec where
  mant : Int
  scale : Nat
  deriving DecidableEq, Repr

/-- Drop trailing decimal zeros: the canonical (shortest) mantissa/scale. -/
def decNorm : Int → Nat → Int × Nat
  | m, 0 => (m, 0)
  | m, s+1 => if m % 10 == 0 then decNorm (m / 10) s else (m, s+1)

/-- Print a decimal fixed-point value as JavaScript prints the number. -/
def jsNumStr (d : Dec) : String :=
  let p := decNorm d.mant d.scale
  if p.2 = 0 then toString p.1
  else
    let sign := if p.1 < 0 then "-" else ""
    let digits := (toString p.1.natAbs).toList
    let padded := List.replicate (p.2 + 1 - digits.length) '0' ++ digits
    sign ++ String.mk (padded.take (padded.length - p.2)) ++ "." ++
      String.mk (padded.drop (padded.length - p.2))

/-- Exact decimal addition (align scales). -/
def Dec.add (a b : Dec) : Dec :=
  if a.scale ≤ b.scale then
    ⟨a.mant * (10 : Int) ^ (b.scale - a.scale) + b.mant, b.scale⟩
  else
    ⟨a.mant + b.mant * (10 : Int) ^ (a.scale - b.scale), a.scale⟩

/-- Exact decimal division by 2 (multiply the mantissa by 5, shift scale). -/
def Dec.half (a : Dec) : Dec :=
  ⟨a.mant * 5, a.scale + 1⟩

/-- A latitude/longitude pair. -/
structure Coord where
  latitude : Dec
  longitude : Dec
  deriving DecidableEq, Repr

/-- `const Delhi = \x7b latitude: 28.6139, longitude: 77.2090 \x7d`. -/
def Delhi : Coord := ⟨⟨286139, 4⟩, ⟨772090, 4⟩⟩

/-- `const Mandi = \x7b latitude: 31.7333, longitude: 76.9333 \x7d`. -/
def Mandi : Coord := ⟨⟨317333, 4⟩, ⟨769333, 4⟩⟩

/-- Does the pattern occur at the head of the character list? -/
def matchesAt : List Char → List Char → Bool
  | [], _ => true
  | _ :: _, [] => false
  | p :: ps, s :: ss => p == s && matchesAt ps ss

/-- Does the pattern occur at some position of the character list? -/
def containsFrom (pat : List Char) : List Char → Bool
  | [] => matchesAt pat []
  | c :: ss => matchesAt pat (c :: ss) || containsFrom pat ss

/-- Substring occurrence test, executable on concrete strings. -/
def strContains (s pat : String) : Bool :=
  containsFrom pat.toList s.toList

/-- `JSON.stringify(routeCoords.map(c => [c[1], c[0]]))`: the route comes
back as `[longitude, latitude]` pairs and is swapped for Leaflet. -/
def jsonSwappedCoords (cs : List (Dec × Dec)) : String :=
  "[" ++
    String.intercalate ","
      (cs.map fun c => "[" ++ jsNumStr c.2 ++ "," ++ jsNumStr c.1 ++ "]") ++
    "]"

/-- The `routePolyline` snippet of `generateMapHTML`: a polyline declaration
when there are route coordinates, the empty string otherwise. -/
def routePolylineSnippet (routeCoords : List (Dec × Dec)) : String :=
  if 0 < routeCoords.length then
    "var routeCoords = " ++ jsonSwappedCoords routeCoords ++
      ";\n         var polyline = L.polyline(routeCoords, \x7bcolor: \x27#2E7D32\x27, weight: 4\x7d).addTo(map);"
  else ""

/-- Embeds `generateMapHTML`: the Leaflet HTML document handed to the web
view, with the tile layer, the two markers, and — only when route
coordinates are present — the polyline declaration and the `fitBounds`
call. -/
def generateMapHTML (routeCoords : List (Dec × Dec)) : String :=
  "\n      <!DOCTYPE html>\n      <html>\n      <head>\n        <meta name=\"viewport\" content=\"width=device-width, initial-scale=1.0, maximum-scale=1.0, user-scalable=no\" />\n        <link rel=\"stylesheet\" href=\"https://unpkg.com/leaflet@1.9.4/dist/leaflet.css\" />\n        <script src=\"https://unpkg.com/leaflet@1.9.4/dist/leaflet.js\"></script>\n        <style>\n          body \x7b margin: 0; padding: 0; \x7d\n          #map \x7b width: 100%; height: 100vh; \x7d\n        </style>\n      </head>\n      <body>\n        <div id=\"map\"></div>\n        <script>\n          var map = L.map(\x27map\x27).setView([" ++
    jsNumStr ((Delhi.latitude.add Mandi.latitude).half) ++ ", " ++
    jsNumStr ((Delhi.longitude.add Mandi.longitude).half) ++
    "], 7);\n          \n          L.tileLayer(\x27https://\x7bs\x7d.tile.openstreetmap.org/\x7bz\x7d/\x7bx\x7d/\x7by\x7d.png\x27, \x7b\n            attribution: \x27&copy; OpenStreetMap contributors\x27,\n            maxZoom: 19\n          \x7d).addTo(map);\n          \n          var delhiMarker = L.marker([" ++
    jsNumStr Delhi.latitude ++ ", " ++ jsNumStr Delhi.longitude ++
    "]).addTo(map);\n          delhiMarker.bindPopup(\x27<b>Delhi</b>\x27).openPopup();\n          \n          var mandiMarker = L.marker([" ++
    jsNumStr Mandi.latitude ++ ", " ++ jsNumStr Mandi.longitude ++
    "]).addTo(map);\n          mandiMarker.bindPopup(\x27<b>Mandi</b>\x27);\n          \n          " ++
    routePolylineSnippet routeCoords ++
    "\n          \n          " ++
    (if 0 < routeCoords.length then
      "map.fitBounds(polyline.getBounds(), \x7bpadding: [50, 50]\x7d);"
    else "") ++
    "\n        </script>\n      </body>\n      </html>\n    "

/-- The component-local state of `MapSection`. -/
structure MapState where
  routeCoordinates : List (Dec × Dec)
  mapHTML : Option String
  deriving DecidableEq, Repr

/-- Outcome of the awaited `axios.get` inside `fetchRoute`. -/
inductive FetchResult
  | ok (coords : List (Dec × Dec))
  | err

/-- One run of the `MapSection` effect body: it returns the number of HTTP
GET requests issued together with the updated state.  With `showResults`
false it returns immediately; otherwise it issues exactly one request and,
on success, stores the returned geometry coordinates verbatim and builds the
HTML from them, while on failure it logs and builds the HTML from the empty
coordinate list. -/
def mapEffectBody (showResults : Bool) (r : FetchResult) (st : MapState) :
    Nat × MapState :=
  if showResults = false then (0, st)
  else
    match r with
    | .ok coords => (1, ⟨coords, some (generateMapHTML coords)⟩)
    | .err => (1, ⟨st.routeCoordinates, some (generateMapHTML [])⟩)

/-- The URL assembled inside `fetchRoute`. -/
def routeURL : String :=
  "https://router.project-osrm.org/route/v1/driving/" ++
    jsNumStr Delhi.longitude ++ "," ++ jsNumStr Delhi.latitude ++ ";" ++
    jsNumStr Mandi.longitude ++ "," ++ jsNumStr Mandi.latitude ++
    "?geometries=geojson"

/-! The effect has `[showResults]` as its dependency array: it runs once on
mount and once on every change of `showResults`.  The following trace model
records the sequence of `showResults` values over the component's lifetime
and counts the requests the effect issues. -/

/-- The values of `showResults` at which the effect re-runs: each element of
the history that differs from its predecessor. -/
def changedValues : Bool → List Bool → List Bool
  | _, [] => []
  | prev, v :: vs =>
    if v == prev then changedValues prev vs else v :: changedValues v vs

/-- The values of `showResults` seen by the effect body across a component
lifetime: the mount value followed by every changed value. -/
def effectRunValues (v0 : Bool) (vs : List Bool) : List Bool :=
  v0 :: changedValues v0 vs

/-- Total number of routing requests issued across a component lifetime:
each effect run issues one request exactly when `showResults` is true. -/
def requestCount (v0 : Bool) (vs : List Bool) : Nat :=
  (effectRunValues v0 vs).countP (fun v => v)

/-- Number of false-to-true transitions of `showResults` in a history. -/
def riseCount : Bool → List Bool → Nat
  | _, [] => 0
  | prev, v :: vs => (if prev = false ∧ v = true then 1 else 0) + riseCount v vs

theorem countP_changedValues (prev : Bool) (vs : List Bool) :
    (changedValues prev vs).countP (fun v => v) = riseCount prev vs := by
  induction vs generalizing prev with
  | nil => rfl
  | cons v vs ih =>
    cases prev <;> cases v <;>
      simp [changedValues, riseCount, List.countP_cons, ih, Nat.add_comm]

/-- C4: if the routing request fails, the error branch stores
`generateMapHTML []` as the map HTML (the map is rendered without a route
overlay), and the HTML built from the empty coordinate list contains the
tile layer and the Delhi and Mandi markers but no polyline declaration and
no `fitBounds` call. -/
theorem map_error_branch_no_route_overlay :
    (∀ st : MapState, mapEffectBody true .err st =
        (1, ⟨st.routeCoordinates, some (generateMapHTML [])⟩)) ∧
    strContains (generateMapHTML [])
        "L.tileLayer(\x27https://\x7bs\x7d.tile.openstreetmap.org/\x7bz\x7d/\x7bx\x7d/\x7by\x7d.png\x27" = true ∧
    strContains (generateMapHTML [])
        "var delhiMarker = L.marker([28.6139, 77.209]).addTo(map);" = true ∧
    strContains (generateMapHTML [])
        "var mandiMarker = L.marker([31.7333, 76.9333]).addTo(map);" = true ∧
    strContains (generateMapHTML []) "L.polyline" = false ∧
    strContains (generateMapHTML []) "fitBounds" = false :=
  ⟨fun _ => rfl, by decide, by decide, by decide, by decide, by decide⟩

/-- C5: the routing call has no retry and no de-duplication: a run of the
effect with `showResults` false issues no request and leaves the state
unchanged; a run with `showResults` true issues exactly one request, and the
number issued is independent of the response (in particular a failed request
causes no further request); across a component lifetime starting at the
initial `useState(false)`, the total number of requests equals the number of
false-to-true transitions of `showResults`. -/
theorem routing_request_policy :
    (∀ r st, mapEffectBody false r st = (0, st)) ∧
    (∀ r st, (mapEffectBody true r st).1 = 1) ∧
    (∀ r r' st st',
      (mapEffectBody true r st).1 = (mapEffectBody true r' st').1) ∧
    (∀ vs : List Bool, requestCount false vs = riseCount false vs) := by
  refine ⟨fun r st => rfl, ?_, ?_, ?_⟩
  · intro r st
    cases r <;> rfl
  · intro r r' st st'
    cases r <;> cases r' <;> rfl
  · intro vs
    show (false :: changedValues false vs).countP (fun v => v) = _
    rw [List.countP_cons, countP_changedValues]
    rfl

/-- C7: the request URL is assembled from the two hardcoded coordinate pairs:
it equals the OSRM driving-route URL with path segment
`77.209,28.6139;76.9333,31.7333` (Delhi longitude,latitude then Mandi
longitude,latitude) and query string `geometries=geojson`; and on a
successful response the geometry coordinates are stored verbatim as
`routeCoordinates` and passed to the HTML builder. -/
theorem routeURL_characterization :
    routeURL =
      "https://router.project-osrm.org/route/v1/driving/77.209,28.6139;76.9333,31.7333?geometries=geojson" ∧
    strContains routeURL "77.209,28.6139;76.9333,31.7333" = true ∧
    strContains routeURL "geometries=geojson" = true ∧
    (∀ coords st, mapEffectBody true (.ok coords) st =
        (1, ⟨coords, some (generateMapHTML coords)⟩)) :=
  ⟨by decide, by decide, by decide, fun _ _ => rfl⟩

/-! ## Root component (App.js) -/

/-- The stack screen rendered by `App`. -/
inductive AppScreen
  | login
  | main
  deriving DecidableEq, Repr

/-- Embeds the conditional render of `App`:
`!isLoggedIn ? <Login .../> : <Main .../>`. -/
def appScreen (isLoggedIn : Bool) : AppScreen :=
  if !isLoggedIn then .login else .main

/-- The operations of `App` on its `isLoggedIn` flag.  The source contains
exactly one: the `onLogin` callback passed to `LoginScreen`, which calls
`setIsLoggedIn(true)`. -/
inductive AppOp
  | onLoginCallback
  deriving DecidableEq, Repr

/-- Applying an `App` operation to the `isLoggedIn` flag. -/
def appApply : AppOp → Bool → Bool
  | .onLoginCallback, _ => true

/-- C6: `App` renders the Login stack screen exactly when `isLoggedIn` is
false and the Main tabs screen exactly when it is true, and the only
operation on the flag is the `onLogin` callback, which sets it to `true` —
no operation of `App` ever sets it back to `false`. -/
theorem app_switches_on_login_flag :
    (∀ b, appScreen b = .login ↔ b = false) ∧
    (∀ b, appScreen b = .main ↔ b = true) ∧
    (∀ op b, appApply op b = true) := by
  refine ⟨fun b => ?_, fun b => ?_, fun op b => ?_⟩
  · cases b <;> simp [appScreen]
  · cases b <;> simp [appScreen]
  · cases op
    rfl

/-! ## Settings screen (SettingsScreen.js) -/

/-- The seven boolean settings of `SettingsScreen`. -/
structure Settings where
  highSafetyMode : Bool
  accessibilityMode : Bool
  personalization : Bool
  notifications : Bool
  locationServices : Bool
  dataUsage : Bool
  darkMode : Bool
  deriving DecidableEq, Repr

/-- The initial `useState` value of the settings object. -/
def initialSettings : Settings :=
  { highSafetyMode := true
    accessibilityMode := false
    personalization := true
    notifications := true
    locationServices := true
    dataUsage := false
    darkMode := false }

/-- The seven keys of the settings object. -/
inductive SettingKey
  | highSafetyMode
  | accessibilityMode
  | personalization
  | notifications
  | locationServices
  | dataUsage
  | darkMode
  deriving DecidableEq, Repr

/-- Reading the value at a key. -/
def getSetting (k : SettingKey) (s : Settings) : Bool :=
  match k with
  | .highSafetyMode => s.highSafetyMode
  | .accessibilityMode => s.accessibilityMode
  | .personalization => s.personalization
  | .notifications => s.notifications
  | .locationServices => s.locationServices
  | .dataUsage => s.dataUsage
  | .darkMode => s.darkMode

/-- Embeds `handleToggle`: spread the previous settings object and negate
the value at the given key. -/
def handleToggle (k : SettingKey) (s : Settings) : Settings :=
  match k with
  | .highSafetyMode => { s with highSafetyMode := !s.highSafetyMode }
  | .accessibilityMode => { s with accessibilityMode := !s.accessibilityMode }
  | .personalization => { s with personalization := !s.personalization }
  | .notifications => { s with notifications := !s.notifications }
  | .locationServices => { s with locationServices := !s.locationServices }
  | .dataUsage => { s with dataUsage := !s.dataUsage }
  | .darkMode => { s with darkMode := !s.darkMode }

/-- C9: `handleToggle k` negates the boolean at `k`, leaves every other key
unchanged, and applying it twice returns the settings to their original
value. -/
theorem handleToggle_frame (s : Settings) (k k' : SettingKey) (h : k' ≠ k) :
    getSetting k (handleToggle k s) = !getSetting k s ∧
    getSetting k' (handleToggle k s) = getSetting k' s ∧
    handleToggle k (handleToggle k s) = s := by
  refine ⟨?_, ?_, ?_⟩
  · cases k <;> rfl
  · cases k <;> cases k' <;> first | rfl | exact absurd rfl h
  · cases s
    cases k <;> simp [handleToggle]

/-- Witness for C9: toggling `darkMode` on the initial settings flips it,
preserves `notifications`, and double-toggling restores the state. -/
theorem handleToggle_frame_witness :
    (SettingKey.notifications ≠ SettingKey.darkMode) ∧
    (getSetting .darkMode (handleToggle .darkMode initialSettings) =
        !getSetting .darkMode initialSettings ∧
      getSetting .notifications (handleToggle .darkMode initialSettings) =
        getSetting .notifications initialSettings ∧
      handleToggle .darkMode (handleToggle .darkMode initialSettings) =
        initialSettings) :=
  ⟨by decide,
   handleToggle_frame initialSettings .darkMode .notifications (by decide)⟩

end UrbanPulse

namespace Solver

/-! ## Standalone numeric solver (the competitive-programming C++ file)

Per test case the program reads `n`, the array `a` (a second array is read
and discarded), checks all index pairs for a common factor, and either
prints `0` immediately (`continue`, skipping the per-prime loop) or runs the
per-prime minimization loop. -/

/-- `const int MAX = 200000`. -/
def MAX : Nat := 200000

/-- `INT_MAX`, the initial value of `ans`. -/
def INTMAX : Nat := 2147483647

/-- The pair scan: `ok` becomes true exactly when some `i < j` has
`__gcd(a[i], a[j]) > 1`. -/
def okCheck (a : List Nat) : Bool :=
  (List.range a.length).any fun i =>
    (List.range a.length).any fun j =>
      decide (i < j) && decide (1 < Nat.gcd (a.getD i 0) (a.getD j 0))

/-- The frequency table `f`: occurrences of the value `m` in `a`. -/
def freq (a : List Nat) (m : Nat) : Nat :=
  a.countP (fun x => x == m)

/-- The cost vector `c` collected for a prime candidate `p`: for every
multiple `m` of `p` up to `MAX`, cost 0 per element equal to `m`, else cost
1 per element equal to `m-1` (when `m-1 > 0`), else cost 2 per element equal
to `m-2` (when `m-2 > 0`). -/
def costList (a : List Nat) (p : Nat) : List Nat :=
  ((List.range (MAX / p)).map (fun t => (t + 1) * p)).flatMap fun m =>
    if 0 < freq a m then List.replicate (freq a m) 0
    else if 0 < m - 1 ∧ 0 < freq a (m - 1) then
      List.replicate (freq a (m - 1)) 1
    else if 0 < m - 2 ∧ 0 < freq a (m - 2) then
      List.replicate (freq a (m - 2)) 2
    else []

/-- The per-prime minimization loop: for `p` from 2 to `MAX`, sort the cost
vector and, when it has at least two entries, take the minimum of `ans` and
the sum of its two smallest entries. -/
def primeLoopAns (a : List Nat) : Nat :=
  (List.range (MAX - 1)).foldl
    (fun ans t =>
      let p := t + 2
      let c := (costList a p).mergeSort (fun x y => decide (x ≤ y))
      if 2 ≤ c.length then min ans (c.getD 0 0 + c.getD 1 0) else ans)
    INTMAX

/-- One test case of `main`: the printed answer, paired with a flag
recording whether the per-prime loop was executed (`continue` skips it). -/
def solveCase (a : List Nat) : Nat × Bool :=
  if okCheck a then (0, false) else (primeLoopAns a, true)

/-- C10: whenever the array contains two elements at indices `i < j` whose
gcd exceeds 1, the test case prints `0` and the per-prime minimization loop
is skipped entirely. -/
theorem solveCase_zero_of_common_factor_pair (a : List Nat) (i j : Nat)
    (hij : i < j) (hj : j < a.length)
    (hg : 1 < Nat.gcd (a.getD i 0) (a.getD j 0)) :
    solveCase a = (0, false) := by
  have hok : okCheck a = true := by
    unfold okCheck
    refine List.any_eq_true.mpr
      ⟨i, List.mem_range.mpr (hij.trans hj),
        List.any_eq_true.mpr ⟨j, List.mem_range.mpr hj, ?_⟩⟩
    simp only [Bool.and_eq_true, decide_eq_true_eq]
    exact ⟨hij, hg⟩
  rw [solveCase, if_pos hok]

/-- Witness for C10 on the array `[2, 4]` with indices 0 and 1. -/
theorem solveCase_zero_of_common_factor_pair_witness :
    ((0 : Nat) < 1 ∧ 1 < ([2, 4] : List Nat).length ∧
      1 < Nat.gcd (([2, 4] : List Nat).getD 0 0)
        (([2, 4] : List Nat).getD 1 0)) ∧
    solveCase [2, 4] = (0, false) :=
  ⟨⟨by decide, by decide, by decide⟩,
   solveCase_zero_of_common_factor_pair [2, 4] 0 1 (by decide) (by decide)
     (by decide)⟩

end Solver
